import Mathlib

/-!
Shallow embedding of `src/drive_autostream.py` (Google Drive to multi-platform
RTMP restreamer) and proofs about its polling-and-relay loop.

Conventions of the embedding:
* Python `Optional[str]` values become `Option String`; Python string
  truthiness (`if self.youtube_url:`) is modelled by `pyTruthyStr`, which is
  false for both `None` and the empty string.
* A Google Drive file metadata dict (field mask `id, name`) becomes the
  structure `FileInfo` with two optional keys; `file_info.get(k, d)` becomes
  `Option.getD`, and `file_info[k]` on a missing key is the `KeyError` path.
* Effects are passed explicitly: the Drive query result is a `QueryOutcome`
  argument, the subprocess runner is an oracle `exec : List String →
  ExecOutcome`, the environment is an `Option String` argument, and interrupt
  delivery is a schedule `intr : Nat → Option IntrPoint`.
* The unbounded `while True` loop is run on explicit fuel; running out of fuel
  is the `RunOutcome.outOfFuel` result, distinct from every terminating result.
-/

namespace DriveAutostream

/-- Immutable configuration, mirroring the frozen dataclass `StreamConfig`
(fields `folder_id`, `service_account_file`, `refresh_interval`, `stream_key`,
`youtube_url`, `twitch_url`, with the dataclass defaults). -/
structure StreamConfig where
  folder_id : String
  service_account_file : String
  refresh_interval : Int := 600
  stream_key : String := "stream"
  youtube_url : Option String := none
  twitch_url : Option String := none
deriving DecidableEq

/-- Python truthiness of an `Optional[str]`: `None` and `""` are falsy,
every other string is truthy. -/
def pyTruthyStr : Option String → Bool
  | none => false
  | some s => !s.isEmpty

/-- Embeds the property `StreamConfig.local_rtmp_url`:
the f-string `rtmp://localhost/live/` followed by the stream key. -/
def StreamConfig.local_rtmp_url (c : StreamConfig) : String :=
  "rtmp://localhost/live/" ++ c.stream_key

/-- Embeds the property `StreamConfig.tee_targets`: start from the local RTMP
URL, then append `youtube_url` if truthy, then `twitch_url` if truthy. -/
def StreamConfig.tee_targets (c : StreamConfig) : List String :=
  let targets := [c.local_rtmp_url]
  let targets := if pyTruthyStr c.youtube_url
    then targets ++ [c.youtube_url.getD ""] else targets
  let targets := if pyTruthyStr c.twitch_url
    then targets ++ [c.twitch_url.getD ""] else targets
  targets

/-- Embeds `build_tee_output`: the f-string `[f=flv]` followed by the targets
joined with the pipe character. -/
def build_tee_output (targets : List String) : String :=
  "[f=flv]" ++ String.intercalate "|" targets

/-- Digit run of a Python decimal integer literal, continuing an accumulator.
An underscore is accepted only when immediately followed by another digit,
as in CPython int parsing. -/
def pyDigitsAux : List Char → Nat → Option Nat
  | [], acc => some acc
  | c :: rest, acc =>
    if c.isDigit then pyDigitsAux rest (10 * acc + (c.toNat - 48))
    else if c = Char.ofNat 95 then
      match rest with
      | [] => none
      | d :: _ => if d.isDigit then pyDigitsAux rest acc else none
    else none

/-- Nonempty digit run starting a Python decimal integer literal. -/
def pyDigits : List Char → Option Nat
  | [] => none
  | c :: rest => if c.isDigit then pyDigitsAux rest (c.toNat - 48) else none

/-- Surrounding whitespace stripped from a character list, as Python `int`
does before parsing. The whitespace characters modelled are space, tab, CR
and LF. -/
def pyStripChars (l : List Char) : List Char :=
  ((l.dropWhile Char.isWhitespace).reverse.dropWhile Char.isWhitespace).reverse

/-- Models Python `int(s)` on decimal strings: surrounding whitespace is
stripped, an optional sign is allowed, then a nonempty digit run (with
CPython underscore grouping). Returns `none` where `int` raises `ValueError`.
Non-ASCII digits and non-ASCII whitespace are not modelled. -/
def pyParseInt (s : String) : Option Int :=
  match pyStripChars s.data with
  | [] => none
  | c :: rest =>
    if c = Char.ofNat 43 then (pyDigits rest).map Int.ofNat
    else if c = Char.ofNat 45 then (pyDigits rest).map (fun n => -(n : Int))
    else (pyDigits (c :: rest)).map Int.ofNat

/-- Embeds `_parse_refresh_interval`. The CLI value (already an `int` thanks
to argparse, hence `Option Int`) wins; otherwise the `REFRESH_INTERVAL`
environment string, defaulted to `600`, is parsed with `int`, raising
`ConfigurationError` on `ValueError`; finally any non-positive value raises
`ConfigurationError`. Errors are the `Except.error` branch, carrying the
message. -/
def _parse_refresh_interval (cli_value : Option Int) (env : Option String) :
    Except String Int :=
  match cli_value with
  | some v =>
    if v ≤ 0 then Except.error "Refresh interval must be a positive integer."
    else Except.ok v
  | none =>
    let refresh_interval_str := env.getD "600"
    match pyParseInt refresh_interval_str with
    | none => Except.error
        ("REFRESH_INTERVAL must be an integer, got " ++ refresh_interval_str ++ ".")
    | some v =>
      if v ≤ 0 then Except.error "Refresh interval must be a positive integer."
      else Except.ok v

/-- One Drive file metadata dict under the field mask `files(id, name)`.
Each field is `none` when the key is absent from the dict. -/
structure FileInfo where
  id : Option String
  name : Option String
deriving DecidableEq

/-- Outcome of `drive_service.files().list(...).execute()`: a successful
response (its `files` list, `results.get` turning a missing key into `[]`),
an `HttpError`, or an exception of any other class (transport errors such as
socket failures are not `HttpError`). -/
inductive QueryOutcome where
  | success (files : List FileInfo)
  | httpError (msg : String)
  | otherError (msg : String)
deriving DecidableEq

/-- Sort key used by `fetch_drive_videos`: `entry.get('name', '')`. -/
def sortKey (f : FileInfo) : String := f.name.getD ""

/-- Python string comparison `a <= b`: lexicographic on code points, a
proper prefix comparing as smaller. -/
def lexLe : List Char → List Char → Bool
  | [], _ => true
  | _ :: _, [] => false
  | a :: as, b :: bs =>
    if a.toNat < b.toNat then true
    else if b.toNat < a.toNat then false
    else lexLe as bs

/-- Order in which `files.sort(key=lambda entry: entry.get('name', ''))`
arranges two entries. -/
def nameLe (a b : FileInfo) : Prop :=
  lexLe (sortKey a).data (sortKey b).data = true

instance : DecidableRel nameLe := fun _ _ =>
  inferInstanceAs (Decidable (_ = true))

instance : IsTotal FileInfo nameLe :=
  ⟨fun a b => by
    have h : ∀ as bs : List Char, lexLe as bs = true ∨ lexLe bs as = true := by
      intro as
      induction as with
      | nil => intro bs; left; rfl
      | cons x xs ih =>
        intro bs
        cases bs with
        | nil => right; rfl
        | cons y ys =>
          simp only [lexLe]
          rcases Nat.lt_trichotomy x.toNat y.toNat with hlt | heq | hgt
          · left; simp [hlt]
          · have h1 : ¬ x.toNat < y.toNat := by omega
            have h2 : ¬ y.toNat < x.toNat := by omega
            rcases ih ys with hxy | hyx
            · left; simp [h1, h2, hxy]
            · right; simp [h1, h2, hyx]
          · right; simp [hgt]
    exact h _ _⟩

instance : IsTrans FileInfo nameLe :=
  ⟨fun a b c => by
    have h : ∀ as bs cs : List Char,
        lexLe as bs = true → lexLe bs cs = true → lexLe as cs = true := by
      intro as
      induction as with
      | nil => intro bs cs _ _; rfl
      | cons x xs ih =>
        intro bs cs hab hbc
        cases bs with
        | nil => simp [lexLe] at hab
        | cons y ys =>
          cases cs with
          | nil => simp [lexLe] at hbc
          | cons z zs =>
            simp only [lexLe] at hab hbc ⊢
            by_cases hyx : y.toNat < x.toNat
            · simp [show ¬ x.toNat < y.toNat by omega, hyx] at hab
            · by_cases hzy : z.toNat < y.toNat
              · simp [show ¬ y.toNat < z.toNat by omega, hzy] at hbc
              · by_cases hxy : x.toNat < y.toNat
                · have hxz : x.toNat < z.toNat := by
                    by_cases hyz : y.toNat < z.toNat <;> omega
                  simp [hxz]
                · by_cases hyz : y.toNat < z.toNat
                  · have hxz : x.toNat < z.toNat := by omega
                    simp [hxz]
                  · have h1 : ¬ x.toNat < z.toNat := by omega
                    have h2 : ¬ z.toNat < x.toNat := by omega
                    simp [hxy, hyx] at hab
                    simp [hyz, hzy] at hbc
                    simp [h1, h2]
                    exact ih _ _ hab hbc
    exact h _ _ _⟩

/-- Embeds `fetch_drive_videos`. On success the response list is sorted
(stably, as Python list sort is) by `entry.get('name', '')` and returned; an
`HttpError` is caught, logged and turned into `[]`; an exception of any other
class is not caught by the `except HttpError` clause and propagates
(`Except.error`). -/
def fetch_drive_videos : QueryOutcome → Except String (List FileInfo)
  | .success files => Except.ok (List.insertionSort nameLe files)
  | .httpError msg =>
      let _warning := "Failed to retrieve Drive files: " ++ msg
      Except.ok []
  | .otherError msg => Except.error msg

/-- Outcome of one `subprocess.run(ffmpeg_cmd, check=False)`: either the tool
exited with a code, or the invocation itself raised an exception. -/
inductive ExecOutcome where
  | exited (code : Int)
  | raised (msg : String)
deriving DecidableEq

/-- Direct-download URL built from a Drive file identifier, embedding the
f-string in `stream_videos`. -/
def driveDownloadUrl (file_id : String) : String :=
  "https://drive.google.com/uc?export=download&id=" ++ file_id

/-- The fixed `ffmpeg_cmd` argument list built in `stream_videos` for one
file identifier and tee output string. -/
def ffmpegCmd (file_id : String) (tee_output : String) : List String :=
  ["ffmpeg", "-re", "-i", driveDownloadUrl file_id,
   "-c:v", "libx264", "-preset", "veryfast",
   "-c:a", "aac", "-ar", "44100", "-b:a", "128k",
   "-f", "tee", tee_output]

/-- Result of `stream_videos`: the trace of per-file invocations (logged
display name and executed command), ending either normally or in the
uncaught `KeyError` from `file_info['id']` on an entry with no `id` key.
The trace in the `keyError` case holds the invocations completed before the
faulting entry; the faulting entry contributes no command. -/
inductive StreamResult where
  | ok (trace : List (String × List String))
  | keyError (trace : List (String × List String))
deriving DecidableEq

/-- Loop body of `stream_videos` over the file list. `file_info['id']`
raises `KeyError` when the key is absent; `file_info.get('name', file_id)`
falls back to the identifier; the `subprocess.run` outcome is inspected only
for logging (warning on non-zero exit, exception logged by the broad
`except`), so control flow continues to the next file in every case. -/
def streamVideosGo (exec : List String → ExecOutcome) (tee_output : String) :
    List FileInfo → StreamResult
  | [] => .ok []
  | file_info :: rest =>
    match file_info.id with
    | none => .keyError []
    | some file_id =>
      let name := file_info.name.getD file_id
      let cmd := ffmpegCmd file_id tee_output
      let _outcome := exec cmd
      match streamVideosGo exec tee_output rest with
      | .ok tr => .ok ((name, cmd) :: tr)
      | .keyError tr => .keyError ((name, cmd) :: tr)

/-- Embeds `stream_videos`: build the tee output once from the configuration,
then relay each listed file in order through the subprocess oracle. -/
def stream_videos (exec : List String → ExecOutcome) (files : List FileInfo)
    (config : StreamConfig) : StreamResult :=
  streamVideosGo exec (build_tee_output config.tee_targets) files

/-- Places inside one iteration of the `run` loop where an external interrupt
(`KeyboardInterrupt`) can be observed between steps: before the Drive fetch,
or at the sleep before the next cycle. -/
inductive IntrPoint where
  | atFetch
  | atSleep
deriving DecidableEq

/-- Observable events of the `run` loop: a completed Drive listing, a
completed pass of `stream_videos` over a non-empty listing, and a
`time.sleep(config.refresh_interval)`. -/
inductive Event where
  | listed (files : List FileInfo)
  | streamed (files : List FileInfo)
  | slept
deriving DecidableEq

/-- How the `run` loop relinquishes control: `finished` is a `break` out of
the loop (single-pass mode), `interrupted` is a `KeyboardInterrupt` caught by
the `except` clause (clean return), `crashed` is an exception that the loop
does not catch (a non-`HttpError` listing failure, or the `KeyError` of
`stream_videos`) propagating out of `run`, and `outOfFuel` means the loop was
still iterating when the fuel ran out. -/
inductive RunOutcome where
  | finished
  | interrupted
  | crashed
  | outOfFuel
deriving DecidableEq

/-- Interrupt schedule that never delivers an interrupt. -/
def noIntr : Nat → Option IntrPoint := fun _ => none

/-- Embeds the `while True` loop of `run` on explicit fuel. `listings n` is
the query outcome of the fetch in cycle `n` and `intr n` the interrupt point
hit in cycle `n`, if any. Faithful to the source order: fetch, empty check
(warning, `break` under `run_once`, else sleep and continue), else stream the
whole list, `break` under `run_once`, else sleep. A caught interrupt and a
`break` both end the loop; uncaught exceptions end it as `crashed`. -/
def runLoop (listings : Nat → QueryOutcome) (intr : Nat → Option IntrPoint)
    (exec : List String → ExecOutcome) (config : StreamConfig)
    (run_once : Bool) : Nat → Nat → RunOutcome × List Event
  | 0, _ => (.outOfFuel, [])
  | fuel + 1, n =>
    if intr n = some .atFetch then (.interrupted, [])
    else
      match fetch_drive_videos (listings n) with
      | .error _ => (.crashed, [])
      | .ok files =>
        if files.isEmpty then
          if run_once then (.finished, [.listed files])
          else if intr n = some .atSleep then (.interrupted, [.listed files])
          else
            let next := runLoop listings intr exec config run_once fuel (n + 1)
            (next.1, .listed files :: .slept :: next.2)
        else
          match stream_videos exec files config with
          | .keyError _ => (.crashed, [.listed files])
          | .ok _ =>
            if run_once then (.finished, [.listed files, .streamed files])
            else if intr n = some .atSleep then
              (.interrupted, [.listed files, .streamed files])
            else
              let next := runLoop listings intr exec config run_once fuel (n + 1)
              (next.1, .listed files :: .streamed files :: .slept :: next.2)

/-- Outcome of the initialisation block of `main` (the `try` around
`ensure_ffmpeg_available`, `StreamConfig.from_sources`,
`load_drive_service`): success, a `ConfigurationError`, or any other
exception — both failure kinds are caught there. -/
inductive InitOutcome where
  | success
  | configError (msg : String)
  | initException (msg : String)
deriving DecidableEq

/-- Embeds the return value of `main`: `1` from either `except` clause of the
initialisation block, otherwise the result of `run`. `run` returning — by
loop exit or by its caught `KeyboardInterrupt` — yields `0`; a crash
propagating out of `run` or a loop still running means `main` never returns
a value (`none`). -/
def mainResult (init : InitOutcome) (listings : Nat → QueryOutcome)
    (intr : Nat → Option IntrPoint) (exec : List String → ExecOutcome)
    (config : StreamConfig) (run_once : Bool) (fuel : Nat) : Option Int :=
  match init with
  | .configError _ => some 1
  | .initException _ => some 1
  | .success =>
    match (runLoop listings intr exec config run_once fuel 0).1 with
    | .finished => some 0
    | .interrupted => some 0
    | .crashed => none
    | .outOfFuel => none

/-- Process-level exit status of `sys.exit(main())`. When `main` returns,
its value is the exit status. When an exception propagates out of `run` —
which line 275 calls outside the initialisation `try` of `main` — no
`except` clause remains, and CPython terminates the process with exit
status 1 after printing the traceback; so a `crashed` loop outcome is
process exit status 1 even though `main` itself never returns a value.
A loop still running (`outOfFuel`) means no exit. -/
def processExitStatus (init : InitOutcome) (listings : Nat → QueryOutcome)
    (intr : Nat → Option IntrPoint) (exec : List String → ExecOutcome)
    (config : StreamConfig) (run_once : Bool) (fuel : Nat) : Option Int :=
  match init with
  | .configError _ => some 1
  | .initException _ => some 1
  | .success =>
    match (runLoop listings intr exec config run_once fuel 0).1 with
    | .finished => some 0
    | .interrupted => some 0
    | .crashed => some 1
    | .outOfFuel => none

/-- The settings of the worked example in the specification: folder `F1`,
stream key `abc`, no external URLs, everything else at the dataclass
defaults. -/
def exampleConfig : StreamConfig :=
  { folder_id := "F1", service_account_file := "/app/credentials.json",
    stream_key := "abc" }

/-- A configuration with both external URLs set, for exercising the tee
serialisation of several targets. -/
def exampleConfigFull : StreamConfig :=
  { folder_id := "F1", service_account_file := "/app/credentials.json",
    stream_key := "abc",
    youtube_url := some "rtmp://a.rtmp.youtube.com/live2/yt",
    twitch_url := some "rtmp://live.twitch.tv/app/tw" }

/-- Number of completed Drive listings recorded in a `run` trace. -/
def countListed (tr : List Event) : Nat :=
  tr.countP fun e => match e with | .listed _ => true | _ => false

/-- Number of completed `stream_videos` passes recorded in a `run` trace. -/
def countStreamed (tr : List Event) : Nat :=
  tr.countP fun e => match e with | .streamed _ => true | _ => false

/-- The value `_parse_refresh_interval` is asked to validate: the CLI integer
when given, otherwise the result of `int` on the environment string defaulted
to `"600"` (`none` meaning `ValueError`). -/
def effectiveRefreshValue (cli_value : Option Int) (env : Option String) :
    Option Int :=
  match cli_value with
  | some v => some v
  | none => pyParseInt (env.getD "600")

/-! ### Helper lemmas -/

/-- When every entry carries an `id` key, the `stream_videos` loop body runs
once per entry, in order, producing one logged name and one command per
entry, independent of the subprocess outcomes. -/
theorem streamVideosGo_ok (exec : List String → ExecOutcome)
    (tee_output : String) (files : List FileInfo)
    (h : ∀ f ∈ files, f.id.isSome) :
    streamVideosGo exec tee_output files =
      StreamResult.ok (files.map fun f =>
        (f.name.getD (f.id.getD ""), ffmpegCmd (f.id.getD "") tee_output)) := by
  induction files with
  | nil => rfl
  | cons f rest ih =>
    have hf : f.id.isSome := h f (List.mem_cons_self f rest)
    obtain ⟨fid, hfid⟩ := Option.isSome_iff_exists.mp hf
    have hrest := ih fun g hg => h g (List.mem_cons_of_mem f hg)
    simp only [streamVideosGo, hfid, hrest, List.map_cons, Option.getD_some]

/-- The first entry with no `id` key stops the `stream_videos` loop: entries
before it each contribute their invocation, the faulting entry contributes no
command, and entries after it are never reached. -/
theorem streamVideosGo_keyError (exec : List String → ExecOutcome)
    (tee_output : String) (pre rest : List FileInfo) (bad : FileInfo)
    (hpre : ∀ f ∈ pre, f.id.isSome) (hbad : bad.id = none) :
    streamVideosGo exec tee_output (pre ++ bad :: rest) =
      StreamResult.keyError (pre.map fun f =>
        (f.name.getD (f.id.getD ""), ffmpegCmd (f.id.getD "") tee_output)) := by
  induction pre with
  | nil => simp only [List.nil_append, streamVideosGo, hbad, List.map_nil]
  | cons f pre2 ih =>
    have hf : f.id.isSome := hpre f (List.mem_cons_self f pre2)
    obtain ⟨fid, hfid⟩ := Option.isSome_iff_exists.mp hf
    have hpre2 := ih fun g hg => hpre g (List.mem_cons_of_mem f hg)
    simp only [List.cons_append, streamVideosGo, hfid, List.append_eq, hpre2,
      List.map_cons, Option.getD_some]

/-! ### Claim theorems -/

/-- Claim C2, counterexample: for the settings with stream key `abc` and no
external URLs, the serialized output-target string is not
`[format=flv]rtmp://localhost/live/abc` — the format specifier the code
writes is `[f=flv]`, not `[format=flv]`. -/
theorem tee_output_format_counterexample :
    build_tee_output exampleConfig.tee_targets ≠
      "[format=flv]rtmp://localhost/live/abc" := by decide

/-- Claim C2, amended: the multi-output tee string is the target URLs joined
by the pipe character and given the format specifier `[f=flv]`; for stream
key `abc` with no external URLs it is `[f=flv]rtmp://localhost/live/abc`,
and with both external URLs configured the three targets appear joined by
pipes after the same specifier. -/
theorem tee_output_string :
    build_tee_output exampleConfig.tee_targets =
      "[f=flv]rtmp://localhost/live/abc" ∧
    build_tee_output exampleConfigFull.tee_targets =
      "[f=flv]rtmp://localhost/live/abc|rtmp://a.rtmp.youtube.com/live2/yt|rtmp://live.twitch.tv/app/tw" ∧
    ∀ targets, build_tee_output targets =
      "[f=flv]" ++ String.intercalate "|" targets :=
  ⟨by decide, by decide, fun _ => rfl⟩

/-- Claim C3, counterexample: an exception that is not an `HttpError` (for
example a transport-level connection failure) is not caught by
`fetch_drive_videos` and propagates instead of producing the empty list. -/
theorem fetch_error_propagates_counterexample :
    fetch_drive_videos (QueryOutcome.otherError "Connection reset by peer") ≠
      Except.ok [] ∧
    fetch_drive_videos (QueryOutcome.otherError "Connection reset by peer") =
      Except.error "Connection reset by peer" :=
  ⟨fun h => Except.noConfusion h, rfl⟩

/-- Claim C3, amended: every `HttpError` raised by the storage query is
caught and turned into the empty list, but an exception of any other class
(such as a transport error) is not caught and propagates out of
`fetch_drive_videos`. -/
theorem fetch_http_error_swallowed :
    (∀ msg, fetch_drive_videos (QueryOutcome.httpError msg) = Except.ok []) ∧
    (∀ msg, fetch_drive_videos (QueryOutcome.otherError msg) =
      Except.error msg) :=
  ⟨fun _ => rfl, fun _ => rfl⟩

/-- Claim C4: for every successful query response the list returned by
`fetch_drive_videos` is a permutation of the response sorted ascending by
name — the sort is applied by the function itself, whatever order the
response arrived in — and in particular a response listing `b.mp4` before
`a.mp4` comes back with `a.mp4` first. -/
theorem fetch_sorted :
    (∀ files, ∃ sorted_files,
      fetch_drive_videos (QueryOutcome.success files) =
        Except.ok sorted_files ∧
      List.Perm sorted_files files ∧
      List.Sorted nameLe sorted_files) ∧
    fetch_drive_videos (QueryOutcome.success
        [⟨some "2", some "b.mp4"⟩, ⟨some "1", some "a.mp4"⟩]) =
      Except.ok [⟨some "1", some "a.mp4"⟩, ⟨some "2", some "b.mp4"⟩] :=
  ⟨fun files => ⟨List.insertionSort nameLe files, rfl,
    List.perm_insertionSort nameLe files,
    List.sorted_insertionSort nameLe files⟩, rfl⟩

/-- Claim C5: for every settings value the relay target list starts with the
local endpoint `rtmp://localhost/live/` plus the stream key, followed by
exactly the configured (truthy) external endpoints in the fixed order
YouTube then Twitch; being a function of the settings alone, it is pure and
deterministic. -/
theorem tee_targets_local_first (c : StreamConfig) :
    c.tee_targets = c.local_rtmp_url ::
      List.filterMap (fun url => if pyTruthyStr url then url else none)
        [c.youtube_url, c.twitch_url] := by
  rcases hy : c.youtube_url with _ | y <;> rcases ht : c.twitch_url with _ | t
  · simp [StreamConfig.tee_targets, pyTruthyStr, hy, ht]
  · cases htE : t.isEmpty <;>
      simp [StreamConfig.tee_targets, pyTruthyStr, hy, ht, htE]
  · cases hyE : y.isEmpty <;>
      simp [StreamConfig.tee_targets, pyTruthyStr, hy, ht, hyE]
  · cases hyE : y.isEmpty <;> cases htE : t.isEmpty <;>
      simp [StreamConfig.tee_targets, pyTruthyStr, hy, ht, hyE, htE]

/-- Claim C6: with no CLI flag and no environment variable the refresh
interval resolves to 600 seconds, and resolution returns a
`ConfigurationError` (the `Except.error` branch, never a crash) exactly when
the supplied value fails integer parsing or is not positive; any positive
effective value is returned as is. -/
theorem refresh_interval_resolution :
    _parse_refresh_interval none none = Except.ok 600 ∧
    ∀ cli_value env,
      ((∃ msg, _parse_refresh_interval cli_value env = Except.error msg) ↔
        (effectiveRefreshValue cli_value env = none ∨
         ∃ v, effectiveRefreshValue cli_value env = some v ∧ v ≤ 0)) ∧
      ∀ v, effectiveRefreshValue cli_value env = some v → 0 < v →
        _parse_refresh_interval cli_value env = Except.ok v := by
  refine ⟨rfl, fun cli_value env => ⟨?_, ?_⟩⟩
  · cases cli_value with
    | some v =>
      by_cases hv : v ≤ 0 <;>
        simp [_parse_refresh_interval, effectiveRefreshValue, hv]
    | none =>
      cases hp : pyParseInt (env.getD "600") with
      | none => simp [_parse_refresh_interval, effectiveRefreshValue, hp]
      | some v =>
        by_cases hv : v ≤ 0 <;>
          simp [_parse_refresh_interval, effectiveRefreshValue, hp, hv]
  · intro v hsome hpos
    cases cli_value with
    | some w =>
      have hw : w = v := by
        simpa [effectiveRefreshValue] using hsome
      subst hw
      simp [_parse_refresh_interval, show ¬ w ≤ 0 by omega]
    | none =>
      have hp : pyParseInt (env.getD "600") = some v := by
        simpa [effectiveRefreshValue] using hsome
      simp [_parse_refresh_interval, hp, show ¬ v ≤ 0 by omega]

/-- Claim C6, witness: a CLI value of 5 resolves to 5 via the positive-value
branch of the theorem. -/
theorem refresh_interval_resolution_witness :
    _parse_refresh_interval (some 5) none = Except.ok 5 :=
  (refresh_interval_resolution.2 (some 5) none).2 5 rfl (by decide)

/-- Claim C1: for a file list in which every entry carries an `id` key (as
every well-formed Drive listing entry does), `stream_videos` builds and
executes the transcoding command exactly once per file, in list order — the
result is the ordered trace of all N invocations — and the result does not
depend on the subprocess outcomes at all, so neither a non-zero exit code
nor an invocation-level exception prevents the remaining files from being
attempted. -/
theorem stream_videos_runs_all (exec : List String → ExecOutcome)
    (files : List FileInfo) (config : StreamConfig)
    (h : ∀ f ∈ files, f.id.isSome) :
    stream_videos exec files config =
      StreamResult.ok (files.map fun f =>
        (f.name.getD (f.id.getD ""),
         ffmpegCmd (f.id.getD "") (build_tee_output config.tee_targets))) ∧
    (files.map fun f =>
        (f.name.getD (f.id.getD ""),
         ffmpegCmd (f.id.getD "") (build_tee_output config.tee_targets))).length
      = files.length ∧
    ∀ exec2, stream_videos exec2 files config = stream_videos exec files config := by
  have h1 := streamVideosGo_ok exec (build_tee_output config.tee_targets) files h
  refine ⟨h1, List.length_map _ _, fun exec2 => ?_⟩
  have h2 := streamVideosGo_ok exec2 (build_tee_output config.tee_targets) files h
  exact h2.trans h1.symm

/-- Claim C1, witness: two files, both with `id` keys, relayed through a
subprocess oracle that always exits non-zero — both are still attempted, in
order. -/
theorem stream_videos_runs_all_witness :
    stream_videos (fun _ => ExecOutcome.exited 1)
        [⟨some "1", some "a.mp4"⟩, ⟨some "2", none⟩] exampleConfig =
      StreamResult.ok
        (([⟨some "1", some "a.mp4"⟩, ⟨some "2", none⟩] : List FileInfo).map
          fun f =>
          (f.name.getD (f.id.getD ""),
           ffmpegCmd (f.id.getD "")
             (build_tee_output exampleConfig.tee_targets))) :=
  (stream_videos_runs_all (fun _ => ExecOutcome.exited 1)
    [⟨some "1", some "a.mp4"⟩, ⟨some "2", none⟩] exampleConfig (by decide)).1

/-- Claim C10: an entry with no `id` key makes `stream_videos` raise the
uncaught `KeyError` of `file_info['id']` before that entry's command is
built and outside the per-file recovery — the entries before it are
attempted, the faulting entry contributes no command, and every entry after
it is abandoned, independent of the subprocess oracle; by contrast a missing
`name` key is harmless: the display name falls back to the identifier and
the entry is relayed normally. -/
theorem stream_videos_keyError (exec : List String → ExecOutcome)
    (config : StreamConfig) (pre rest : List FileInfo) (bad : FileInfo)
    (hpre : ∀ f ∈ pre, f.id.isSome) (hbad : bad.id = none) :
    stream_videos exec (pre ++ bad :: rest) config =
      StreamResult.keyError (pre.map fun f =>
        (f.name.getD (f.id.getD ""),
         ffmpegCmd (f.id.getD "") (build_tee_output config.tee_targets))) ∧
    ∀ file_id,
      stream_videos exec [⟨some file_id, none⟩] config =
        StreamResult.ok [(file_id,
          ffmpegCmd file_id (build_tee_output config.tee_targets))] :=
  ⟨streamVideosGo_keyError exec (build_tee_output config.tee_targets)
      pre rest bad hpre hbad,
    fun _ => rfl⟩

/-- Claim C10, witness: with one good file before and one after, an entry
lacking `id` aborts the run after the first file's invocation only. -/
theorem stream_videos_keyError_witness :
    stream_videos (fun _ => ExecOutcome.exited 0)
        ([⟨some "1", some "a.mp4"⟩] ++
          (⟨none, some "broken.mp4"⟩ : FileInfo) :: [⟨some "3", some "c.mp4"⟩])
        exampleConfig =
      StreamResult.keyError
        (([⟨some "1", some "a.mp4"⟩] : List FileInfo).map fun f =>
          (f.name.getD (f.id.getD ""),
           ffmpegCmd (f.id.getD "")
             (build_tee_output exampleConfig.tee_targets))) :=
  (stream_videos_keyError (fun _ => ExecOutcome.exited 0) exampleConfig
    [⟨some "1", some "a.mp4"⟩] [⟨some "3", some "c.mp4"⟩]
    ⟨none, some "broken.mp4"⟩ (by decide) rfl).1

/-- Claim C7: in single-pass mode the loop performs exactly one listing —
one fetch, then at most one full relay pass — and finishes, whatever the
listings at later cycles would return; without single-pass mode the loop
never reaches the `finished` outcome, and under well-formed listings it is
still running whenever the fuel runs out. -/
theorem run_once_single_cycle :
    (∀ listings exec config files fuel n,
      fetch_drive_videos (listings n) = Except.ok files →
      (∀ f ∈ files, f.id.isSome) →
      ((runLoop listings noIntr exec config true (fuel + 1) n).1 =
          RunOutcome.finished ∧
       countListed (runLoop listings noIntr exec config true (fuel + 1) n).2 = 1 ∧
       countStreamed (runLoop listings noIntr exec config true (fuel + 1) n).2 ≤ 1)) ∧
    (∀ listings exec config fuel n,
      (runLoop listings noIntr exec config false fuel n).1 ≠
        RunOutcome.finished) ∧
    (∀ listings exec config fuel n,
      (∀ m, ∃ files, fetch_drive_videos (listings m) = Except.ok files ∧
        ∀ f ∈ files, f.id.isSome) →
      (runLoop listings noIntr exec config false fuel n).1 =
        RunOutcome.outOfFuel) := by
  refine ⟨?_, ?_, ?_⟩
  · intro listings exec config files fuel n hfetch hids
    have hstream := streamVideosGo_ok exec (build_tee_output config.tee_targets)
      files hids
    have key : runLoop listings noIntr exec config true (fuel + 1) n =
        if files.isEmpty then (RunOutcome.finished, [Event.listed files])
        else (RunOutcome.finished, [Event.listed files, Event.streamed files]) := by
      simp only [runLoop, noIntr]
      rw [hfetch]
      cases he : files.isEmpty <;> simp [he, stream_videos, hstream]
    rw [key]
    cases he : files.isEmpty <;> simp [he, countListed, countStreamed]
  · intro listings exec config fuel n
    induction fuel generalizing n with
    | zero => simp [runLoop]
    | succ fuel ih =>
      simp only [runLoop, noIntr]
      cases hfetch : fetch_drive_videos (listings n) with
      | error e => simp [hfetch]
      | ok files =>
        cases he : files.isEmpty with
        | true => simp [hfetch, he, ih (n + 1)]
        | false =>
          cases hs : stream_videos exec files config with
          | keyError tr => simp [hfetch, he, hs]
          | ok tr => simp [hfetch, he, hs, ih (n + 1)]
  · intro listings exec config fuel n hgood
    induction fuel generalizing n with
    | zero => simp [runLoop]
    | succ fuel ih =>
      obtain ⟨files, hfetch, hids⟩ := hgood n
      have hstream := streamVideosGo_ok exec (build_tee_output config.tee_targets)
        files hids
      simp only [runLoop, noIntr]
      rw [hfetch]
      cases he : files.isEmpty <;>
        simp [he, stream_videos, hstream, ih (n + 1)]

/-- Claim C7, witness: a one-file listing under single-pass mode finishes
with one listing and one relay pass, while the same listings without
single-pass mode exhaust any amount of fuel. -/
theorem run_once_single_cycle_witness :
    ((runLoop (fun _ => QueryOutcome.success [⟨some "1", some "a.mp4"⟩]) noIntr
        (fun _ => ExecOutcome.exited 0) exampleConfig true 1 0).1 =
      RunOutcome.finished ∧
     countListed (runLoop (fun _ => QueryOutcome.success [⟨some "1", some "a.mp4"⟩])
        noIntr (fun _ => ExecOutcome.exited 0) exampleConfig true 1 0).2 = 1 ∧
     countStreamed (runLoop (fun _ => QueryOutcome.success [⟨some "1", some "a.mp4"⟩])
        noIntr (fun _ => ExecOutcome.exited 0) exampleConfig true 1 0).2 ≤ 1) ∧
    (runLoop (fun _ => QueryOutcome.success [⟨some "1", some "a.mp4"⟩]) noIntr
        (fun _ => ExecOutcome.exited 0) exampleConfig false 7 0).1 =
      RunOutcome.outOfFuel :=
  ⟨run_once_single_cycle.1 (fun _ => QueryOutcome.success [⟨some "1", some "a.mp4"⟩])
      (fun _ => ExecOutcome.exited 0) exampleConfig [⟨some "1", some "a.mp4"⟩] 0 0
      rfl (by decide),
   run_once_single_cycle.2.2 (fun _ => QueryOutcome.success [⟨some "1", some "a.mp4"⟩])
      (fun _ => ExecOutcome.exited 0) exampleConfig 7 0
      (fun _ => ⟨[⟨some "1", some "a.mp4"⟩], rfl, by decide⟩)⟩

/-- Claim C8, counterexample: in single-pass mode an empty listing makes the
loop terminate at once — the trace records the listing but no sleep, so the
loop does not proceed to the wait-and-retry path. -/
theorem empty_listing_counterexample :
    (runLoop (fun _ => QueryOutcome.success []) noIntr
        (fun _ => ExecOutcome.exited 0) exampleConfig true 3 0).1 =
      RunOutcome.finished ∧
    Event.listed [] ∈ (runLoop (fun _ => QueryOutcome.success []) noIntr
        (fun _ => ExecOutcome.exited 0) exampleConfig true 3 0).2 ∧
    Event.slept ∉ (runLoop (fun _ => QueryOutcome.success []) noIntr
        (fun _ => ExecOutcome.exited 0) exampleConfig true 3 0).2 := by
  decide

/-- Claim C8, amended: an empty listing never raises; in continuous mode the
loop then proceeds to the wait-and-retry path — it sleeps for the refresh
interval and re-enters listing at the next cycle — while in single-pass mode
it instead terminates cleanly without sleeping. -/
theorem empty_listing_behaviour :
    (∀ listings exec config fuel n,
      fetch_drive_videos (listings n) = Except.ok [] →
      runLoop listings noIntr exec config false (fuel + 1) n =
        ((runLoop listings noIntr exec config false fuel (n + 1)).1,
         Event.listed [] :: Event.slept ::
           (runLoop listings noIntr exec config false fuel (n + 1)).2)) ∧
    (∀ listings exec config fuel n,
      fetch_drive_videos (listings n) = Except.ok [] →
      runLoop listings noIntr exec config true (fuel + 1) n =
        (RunOutcome.finished, [Event.listed []])) := by
  constructor <;>
    · intro listings exec config fuel n hfetch
      simp only [runLoop, noIntr]
      rw [hfetch]
      simp

/-- Claim C8, witness: a listing failing with `HttpError` is an empty
result; in continuous mode the loop sleeps and re-lists. -/
theorem empty_listing_behaviour_witness :
    runLoop (fun _ => QueryOutcome.httpError "quota exceeded") noIntr
        (fun _ => ExecOutcome.exited 0) exampleConfig false 2 0 =
      ((runLoop (fun _ => QueryOutcome.httpError "quota exceeded") noIntr
          (fun _ => ExecOutcome.exited 0) exampleConfig false 1 1).1,
       Event.listed [] :: Event.slept ::
         (runLoop (fun _ => QueryOutcome.httpError "quota exceeded") noIntr
           (fun _ => ExecOutcome.exited 0) exampleConfig false 1 1).2) :=
  empty_listing_behaviour.1 (fun _ => QueryOutcome.httpError "quota exceeded")
    (fun _ => ExecOutcome.exited 0) exampleConfig 1 0 rfl

/-- Claim C9, counterexample: the process can exit with status 1 with no
configuration or initialization failure at all. After successful
initialisation, a transport-level listing error that is not an `HttpError`
propagates out of `run` — called outside the `try` of `main` — and the
uncaught exception terminates the process with exit status 1; so does the
`KeyError` of a listed file entry without an `id` key. This refutes
"code 1 exactly when configuration or initialization fails". -/
theorem exit_codes_counterexample :
    processExitStatus InitOutcome.success
        (fun _ => QueryOutcome.otherError "Connection reset by peer") noIntr
        (fun _ => ExecOutcome.exited 0) exampleConfig false 1 = some 1 ∧
    processExitStatus InitOutcome.success
        (fun _ => QueryOutcome.success [(⟨none, some "x.mp4"⟩ : FileInfo)])
        noIntr (fun _ => ExecOutcome.exited 0) exampleConfig false 1 =
      some 1 :=
  ⟨rfl, rfl⟩

/-- Claim C9, amended: the process exit status is 0 exactly when the loop
ends normally — completion of a single pass or a caught external interrupt
at any point of the poll loop, an interrupt never being an error — and 1
when configuration or initialization fails, but not only then: an uncaught
exception escaping the poll loop (a non-`HttpError` listing failure, or the
`KeyError` of an entry without an `id`) also terminates the process with
status 1 despite successful initialization. -/
theorem process_exit_status :
    (∀ init listings intr exec config run_once fuel,
      processExitStatus init listings intr exec config run_once fuel =
          some 1 ↔
        ((∃ msg, init = InitOutcome.configError msg) ∨
         (∃ msg, init = InitOutcome.initException msg) ∨
         (init = InitOutcome.success ∧
          (runLoop listings intr exec config run_once fuel 0).1 =
            RunOutcome.crashed))) ∧
    (∀ listings intr exec config run_once fuel,
      processExitStatus InitOutcome.success listings intr exec config
          run_once fuel = some 0 ↔
        ((runLoop listings intr exec config run_once fuel 0).1 =
            RunOutcome.finished ∨
         (runLoop listings intr exec config run_once fuel 0).1 =
            RunOutcome.interrupted)) ∧
    (∀ listings exec config run_once fuel,
      processExitStatus InitOutcome.success listings
        (fun _ => some IntrPoint.atFetch) exec config run_once (fuel + 1) =
        some 0) := by
  refine ⟨?_, ?_, ?_⟩
  · intro init listings intr exec config run_once fuel
    cases init with
    | configError msg => simp [processExitStatus]
    | initException msg => simp [processExitStatus]
    | success =>
      cases h : (runLoop listings intr exec config run_once fuel 0).1 <;>
        simp [processExitStatus, h]
  · intro listings intr exec config run_once fuel
    cases h : (runLoop listings intr exec config run_once fuel 0).1 <;>
      simp [processExitStatus, h]
  · intro listings exec config run_once fuel
    rfl

/-- Claim C9, witness: a completed single pass over an empty folder exits
the process with status 0. -/
theorem process_exit_status_witness :
    processExitStatus InitOutcome.success (fun _ => QueryOutcome.success [])
        noIntr (fun _ => ExecOutcome.exited 0) exampleConfig true 3 =
      some 0 :=
  (process_exit_status.2.1 (fun _ => QueryOutcome.success []) noIntr
    (fun _ => ExecOutcome.exited 0) exampleConfig true 3).mpr (Or.inl rfl)

end DriveAutostream
